import Mathlib

/-!
Verification development for the wasm optimization wrapper of the
keyboard_layout_optimizer repository
(src/evolve_keyboard_layout_wasm/src/lib.rs).

The file shallowly embeds the two entry points the claims are about:

* the genetic `LayoutOptimizer` with its `all_time_best` record and its
  `step` method (lib.rs lines 199-292), and
* simulated annealing: `SaObserver::observe_iter` (lines 301-321) and
  `sa_optimize` (lines 323-370).

External collaborators (the genevo simulator, the argmin engine, the
`Evaluator`, the `PermutationLayoutGenerator` of the
`layout_optimization` crate and the `Parameters` of
`layout_optimization_sa`) are not part of src/; they enter the model
either as type/function parameters or, where a claim depends on their
behavior, as definitions modelled from the spec (marked as such in
their doc comments).
-/

namespace KeyboardLayoutWasm

/-- One result of `self.simulator.step()` as matched by
`LayoutOptimizer::step` (lib.rs 250): genevo's
`SimResult::Intermediate` carries a best solution (its fitness is the
`usize` stored into `all_time_best`, its genome a `Vec<usize>`,
modelled by the type parameter `G`); `SimResult::Final` ends the run;
an `Err` from the simulator is the error branch. -/
inductive SimResult (G : Type) where
  | intermediate (fitness : Nat) (genome : G)
  | final
  | err (msg : String)
deriving DecidableEq

/-- The data a successful intermediate `step` reports back (lib.rs
267-280): the layout materialized by
`permutation_layout_generator.generate_layout` from the all-time-best
genome, and the result of `evaluator.evaluate_layout` on it. The
layout and evaluation types are opaque parameters `L` and `E`. -/
structure StepReport (L E : Type) where
  layout : L
  eval : E
deriving DecidableEq

/-- The mutable state of `LayoutOptimizer` that `step` reads and
writes: the field `all_time_best: Option<(usize, Vec<usize>)>`
(lib.rs 204). `LayoutOptimizer::new` initializes it to `None`
(lib.rs 237). -/
structure OptState (G : Type) where
  all_time_best : Option (Nat × G)
deriving DecidableEq

/-- The best-record update performed inside the `Intermediate` branch
of `LayoutOptimizer::step` (lib.rs 253-265): if a record is held,
replace it exactly when the offered fitness is strictly greater
(`best_solution.solution.fitness > king.0`); if no record is held,
install the offered pair. -/
def offer {G : Type} (held : Option (Nat × G)) (fitness : Nat) (genome : G) :
    Option (Nat × G) :=
  match held with
  | some king => if fitness > king.1 then some (fitness, genome) else some king
  | none => some (fitness, genome)

/-- `LayoutOptimizer::step` (lib.rs 246-291). The simulator's result
for this call is passed in as `r`; `generate_layout` stands for
`self.permutation_layout_generator.generate_layout` and
`evaluate_layout` for `self.evaluator.evaluate_layout` (both external
to src/). On `Intermediate` the code updates `all_time_best` (253-265),
then materializes and evaluates the layout of
`self.all_time_best.as_ref().unwrap().1` (267-280); the `unwrap` on
`None` would panic, modelled as an error. On `Final` it returns
`Ok(None)` (282-285). On `Err` it returns
`Err(format!("Error in optimization: {:?}", error))` (286-289). -/
def stepGen {G L E : Type} (generate_layout : G → L) (evaluate_layout : L → E)
    (st : OptState G) (r : SimResult G) :
    OptState G × Except String (Option (StepReport L E)) :=
  match r with
  | SimResult.intermediate fitness genome =>
      let st2 : OptState G := ⟨offer st.all_time_best fitness genome⟩
      let out : Except String (Option (StepReport L E)) :=
        match st2.all_time_best with
        | some best =>
            let layout := generate_layout best.2
            Except.ok (some ⟨layout, evaluate_layout layout⟩)
        | none => Except.error "called Option::unwrap on a None value"
      (st2, out)
  | SimResult.final => (st, Except.ok none)
  | SimResult.err e => (st, Except.error ("Error in optimization: " ++ e))

/-- Folding `stepGen` over a list of successive simulator results:
the optimizer state after that many `step()` calls. -/
def runOpt {G L E : Type} (generate_layout : G → L) (evaluate_layout : L → E)
    (st : OptState G) : List (SimResult G) → OptState G
  | [] => st
  | r :: rs =>
      runOpt generate_layout evaluate_layout
        (stepGen generate_layout evaluate_layout st r).1 rs

/-- The sequence of values returned by successive `step()` calls. -/
def runOutputs {G L E : Type} (generate_layout : G → L) (evaluate_layout : L → E)
    (st : OptState G) :
    List (SimResult G) → List (Except String (Option (StepReport L E)))
  | [] => []
  | r :: rs =>
      (stepGen generate_layout evaluate_layout st r).2 ::
        runOutputs generate_layout evaluate_layout
          (stepGen generate_layout evaluate_layout st r).1 rs

/-- The fitness component of the held all-time-best record. -/
def bestFitness {G : Type} (st : OptState G) : Option Nat :=
  st.all_time_best.map Prod.fst

/-- Order on optional fitness values: an empty record is below
everything; held fitnesses compare as naturals. -/
def fitnessLe : Option Nat → Option Nat → Prop
  | none, _ => True
  | some _, none => False
  | some a, some b => a ≤ b

theorem fitnessLe_refl (a : Option Nat) : fitnessLe a a := by
  cases a <;> simp [fitnessLe]

theorem fitnessLe_trans {a b c : Option Nat} (hab : fitnessLe a b)
    (hbc : fitnessLe b c) : fitnessLe a c := by
  cases a <;> cases b <;> cases c <;> simp_all [fitnessLe]
  omega

theorem offer_fitnessLe {G : Type} (held : Option (Nat × G)) (f : Nat) (g : G) :
    fitnessLe (held.map Prod.fst) ((offer held f g).map Prod.fst) := by
  cases held with
  | none => simp [offer, fitnessLe]
  | some king =>
      by_cases h : f > king.1 <;> simp [offer, h, fitnessLe]
      omega

theorem stepGen_fitnessLe {G L E : Type} (gL : G → L) (eL : L → E)
    (st : OptState G) (r : SimResult G) :
    fitnessLe (bestFitness st) (bestFitness (stepGen gL eL st r).1) := by
  cases r with
  | intermediate f g => exact offer_fitnessLe st.all_time_best f g
  | final => exact fitnessLe_refl _
  | err e => exact fitnessLe_refl _

theorem runOpt_fitnessLe {G L E : Type} (gL : G → L) (eL : L → E)
    (rs : List (SimResult G)) (st : OptState G) :
    fitnessLe (bestFitness st) (bestFitness (runOpt gL eL st rs)) := by
  induction rs generalizing st with
  | nil => exact fitnessLe_refl _
  | cons r rs ih =>
      exact fitnessLe_trans (stepGen_fitnessLe gL eL st r)
        (ih (stepGen gL eL st r).1)

theorem runOpt_append {G L E : Type} (gL : G → L) (eL : L → E)
    (rs1 rs2 : List (SimResult G)) (st : OptState G) :
    runOpt gL eL st (rs1 ++ rs2) = runOpt gL eL (runOpt gL eL st rs1) rs2 := by
  induction rs1 generalizing st with
  | nil => rfl
  | cons r rs ih => simp [runOpt, ih]

/-- The `Intermediate` branch of `step` always holds a record after the
update and reports the evaluation of the layout materialized from the
held genome. -/
theorem stepGen_intermediate_spec {G L E : Type} (gL : G → L) (eL : L → E)
    (st : OptState G) (f : Nat) (g : G) :
    ∃ f2 g2,
      (stepGen gL eL st (SimResult.intermediate f g)).1.all_time_best =
        some (f2, g2) ∧
      (stepGen gL eL st (SimResult.intermediate f g)).2 =
        Except.ok (some ⟨gL g2, eL (gL g2)⟩) := by
  cases hst : st.all_time_best with
  | none =>
      refine ⟨f, g, ?_, ?_⟩ <;> simp [stepGen, offer, hst]
  | some king =>
      by_cases h : f > king.1
      · refine ⟨f, g, ?_, ?_⟩ <;> simp [stepGen, offer, hst, h]
      · refine ⟨king.1, king.2, ?_, ?_⟩ <;> simp [stepGen, offer, hst, h]

/-- The `PermutationLayoutGenerator` built for an annealing run
(lib.rs 348-352): `PermutationLayoutGenerator::new(layout_str,
fixed_characters, &layout_evaluator.layout_generator)`. Its
implementation lives in the layout_optimization crate (not under
src/); here it is the record of the construction inputs that identify
the generator for the run (the third argument, the evaluator's base
`NeoLayoutGenerator`, is the same external object for every
construction in lib.rs and is abstracted away), and its method
`generate_string` is passed around as a function parameter. -/
structure PermutationLayoutGenerator where
  layout_str : String
  fixed_characters : String
deriving DecidableEq

/-- The part of argmin's `IterState` read by
`SaObserver::observe_iter` (lib.rs 307-317): the iteration counter
`state.iter`, the current parameter vector `state.param` (a
permutation, type parameter `P`), the current cost `state.cost`
(an f64, kept opaque as type parameter `C`), and the result of
`state.is_best()`. -/
structure SaIterState (P C : Type) where
  iter : Nat
  param : P
  cost : C
  best : Bool

/-- `SaObserver` (lib.rs 295-299): the run's layout generator plus the
two JavaScript callbacks. A JS call can fail (`call1`/`call2` return a
`Result` that the code discards), so the callbacks are modelled as
functions into `Except String Unit` whose result the observer may
drop. -/
structure SaObserver (P C : Type) where
  layout_generator : PermutationLayoutGenerator
  update_callback : Nat → Except String Unit
  new_best_callback : String → C → Except String Unit

/-- One observable callback invocation made by `sa_optimize` or its
observer: the single budget report through `max_iters_callback`, a
progress report through `update_callback`, or a new-best report
through `new_best_callback`. -/
inductive SaCall (C : Type) where
  | maxIters (n : Nat)
  | update (iter : Nat)
  | newBest (layout : String) (cost : C)
deriving DecidableEq

/-- `SaObserver::observe_iter` (lib.rs 302-320). Returns the list of
callback invocations it makes together with its own return value.
When `iteration_nr % 10 == 0 && iteration_nr > 0` it calls
`update_callback` with the iteration number; when `state.is_best()` it
calls `new_best_callback` with
`self.layout_generator.generate_string(&state.param)` and
`state.cost`. Both call results are bound to `_` and dropped, and the
function returns `Ok(())` unconditionally. `generate_string` (external
to src/) is a function parameter. -/
def observe_iter {P C : Type}
    (generate_string : PermutationLayoutGenerator → P → String)
    (obs : SaObserver P C) (state : SaIterState P C) :
    List (SaCall C) × Except String Unit :=
  let updCalls : List (SaCall C) :=
    if state.iter % 10 = 0 ∧ 0 < state.iter then
      let _ := obs.update_callback state.iter
      [SaCall.update state.iter]
    else []
  let bestCalls : List (SaCall C) :=
    if state.best then
      let layout_js := generate_string obs.layout_generator state.param
      let _ := obs.new_best_callback layout_js state.cost
      [SaCall.newBest layout_js state.cost]
    else []
  (updCalls ++ bestCalls, Except.ok ())

/-- Modelled from the spec: `layout_optimization_sa::optimization::Parameters`
is not under src/; only the fields `sa_optimize` reads are modelled:
the initial temperature (an f64, modelled as a rational) and the
iteration budget `max_iters`. -/
structure SaParameters where
  init_temp : Rat
  max_iters : Nat
deriving DecidableEq

/-- Modelled from the spec: the "positive default" that a non-positive
initial temperature is corrected to (the concrete value is internal to
layout_optimization_sa and not under src/; any positive constant
represents it). -/
def default_init_temp : Rat := 100

/-- Modelled from the spec: `Parameters::correct_init_temp` (called at
lib.rs 338, implemented in layout_optimization_sa, not under src/):
"Make sure the initial temperature is greater than zero" — a
non-positive initial temperature is corrected to a positive default;
other fields are untouched. -/
def correct_init_temp (p : SaParameters) : SaParameters :=
  if p.init_temp ≤ 0 then ⟨default_init_temp, p.max_iters⟩ else p

/-- The data the external annealing engine
(`sa_optimization::optimize` plus argmin, neither under src/) feeds to
the observer and returns: for each iteration number, the parameter
vector, cost and is_best flag of the state the observer sees at that
iteration, and the final layout whose `as_text()` the wrapper returns. -/
structure SaRun (P C : Type) where
  param : Nat → P
  cost : Nat → C
  best : Nat → Bool
  result_text : String

/-- Outcome of calling `sa_optimize`. Its Rust signature returns a bare
`String`, so the only abnormal exit is a panic (the `unwrap` at lib.rs
336); a normal return carries the parameters handed to the annealing
engine, the callback invocations made, and the returned layout text. -/
inductive SaOutcome (C : Type) where
  | panic (msg : String)
  | returned (parameters : SaParameters) (calls : List (SaCall C))
      (layout_text : String)
deriving DecidableEq

/-- The callback invocations of an outcome (none for a panic). -/
def callsOf {C : Type} : SaOutcome C → List (SaCall C)
  | SaOutcome.panic _ => []
  | SaOutcome.returned _ calls _ => calls

/-- The observer calls of iteration `i` of a run. -/
def saIterCalls {P C : Type}
    (generate_string : PermutationLayoutGenerator → P → String)
    (obs : SaObserver P C) (run : SaRun P C) (i : Nat) : List (SaCall C) :=
  (observe_iter generate_string obs
    ⟨i, run.param i, run.cost i, run.best i⟩).1

/-- `sa_optimize` (lib.rs 323-370). `parse_result` is the outcome of
`serde_yaml::from_str(optimization_params_str)` (serde is external;
the embedding takes the parse outcome as input): on a parse error the
code calls `.unwrap()` on the mapped error, which panics (lib.rs
334-336). Otherwise the code corrects the initial temperature
(lib.rs 338), calls `max_iters_callback` once with
`parameters.max_iters` and `update_callback` once with `1`, discarding
both results (lib.rs 341-345), builds the `SaObserver` from the
`PermutationLayoutGenerator` constructed for the run out of
`layout_str` and `fixed_characters` (lib.rs 347-355), hands the
corrected parameters and the observer to `sa_optimization::optimize`
(lib.rs 357-368) and returns `result.as_text()`. The engine's loop is
modelled from the spec (the engine is not under src/): it invokes the
observer once per iteration, for iterations 1 up to
`parameters.max_iters`, with that iteration's state from `run`. -/
def sa_optimize {P C : Type} (parse_result : Option SaParameters)
    (generate_string : PermutationLayoutGenerator → P → String)
    (layout_str : String) (fixed_characters : String)
    (max_iters_callback : Nat → Except String Unit)
    (update_callback : Nat → Except String Unit)
    (new_best_callback : String → C → Except String Unit)
    (run : SaRun P C) : SaOutcome C :=
  match parse_result with
  | none => SaOutcome.panic "Could not read optimization params"
  | some p0 =>
      let parameters := correct_init_temp p0
      let _ := max_iters_callback parameters.max_iters
      let _ := update_callback 1
      let observer : SaObserver P C :=
        ⟨⟨layout_str, fixed_characters⟩, update_callback, new_best_callback⟩
      let preCalls : List (SaCall C) :=
        [SaCall.maxIters parameters.max_iters, SaCall.update 1]
      let loopCalls : List (SaCall C) :=
        (List.range parameters.max_iters).flatMap
          (fun i => saIterCalls generate_string observer run (i + 1))
      SaOutcome.returned parameters (preCalls ++ loopCalls) run.result_text

/-- The arguments of the `update_callback` invocations among a call
list, in order. -/
def updateIters {C : Type} (calls : List (SaCall C)) : List Nat :=
  calls.filterMap (fun c =>
    match c with
    | SaCall.update n => some n
    | _ => none)

/-- The arguments of the `max_iters_callback` invocations among a call
list, in order. -/
def maxItersArgs {C : Type} (calls : List (SaCall C)) : List Nat :=
  calls.filterMap (fun c =>
    match c with
    | SaCall.maxIters n => some n
    | _ => none)

/-- Concrete layout generator used for counterexamples and witnesses:
the materialized layout of a genome is the genome itself. -/
def gL0 : List Nat → List Nat := fun g => g

/-- Concrete evaluator used for counterexamples and witnesses: the
evaluation of a layout is its length. -/
def eL0 : List Nat → Nat := fun l => l.length

/-- C1: across every sequence of successive `step()` calls on a
`LayoutOptimizer` (which starts with `all_time_best = None`), the
fitness held in `all_time_best` is non-decreasing: after any further
calls it is at least what it was after any prefix of the calls, no
matter what the simulator's generations report. -/
theorem C1_all_time_best_monotone {G L E : Type} (gL : G → L) (eL : L → E)
    (rs1 rs2 : List (SimResult G)) :
    fitnessLe (bestFitness (runOpt gL eL (⟨none⟩ : OptState G) rs1))
      (bestFitness (runOpt gL eL (⟨none⟩ : OptState G) (rs1 ++ rs2))) := by
  rw [runOpt_append]
  exact runOpt_fitnessLe gL eL rs2 _

/-- C2: the all-time-best record update of `step` replaces the held
pair iff no pair is held yet or the offered fitness strictly exceeds
the held one (so an equal fitness keeps the held pair), and no `step`
ever clears a record once one is held. -/
theorem C2_offer_iff {G L E : Type} (gL : G → L) (eL : L → E)
    (f0 f : Nat) (g0 g : G) (st : OptState G) (r : SimResult G) :
    offer (none : Option (Nat × G)) f g = some (f, g) ∧
    offer (some (f0, g0)) f g =
      (if f0 < f then some (f, g) else some (f0, g0)) ∧
    (st.all_time_best.isSome →
      ((stepGen gL eL st r).1.all_time_best).isSome) := by
  refine ⟨rfl, rfl, fun hsome => ?_⟩
  cases r with
  | intermediate fi gi =>
      cases hst : st.all_time_best with
      | none => simp [hst] at hsome
      | some king =>
          by_cases h : fi > king.1 <;> simp [stepGen, offer, hst, h]
  | final => exact hsome
  | err e => exact hsome

/-- Witness for C2 at concrete inputs: a held record survives a step
(an intermediate result with higher fitness). -/
theorem C2_offer_iff_witness :
    ((⟨some (3, [0])⟩ : OptState (List Nat)).all_time_best).isSome ∧
    ((stepGen gL0 eL0 (⟨some (3, [0])⟩ : OptState (List Nat))
      (SimResult.intermediate 4 [1])).1.all_time_best).isSome :=
  ⟨by decide,
    (C2_offer_iff gL0 eL0 3 4 [0] [1] (⟨some (3, [0])⟩ : OptState (List Nat))
      (SimResult.intermediate 4 [1])).2.2 (by decide)⟩

/-- C3 counterexample: not every successful `step()` call reports an
evaluation of the all-time-best layout — the call on which the
simulator reports `Final` returns `Ok(None)` (lib.rs 282-285), with no
report at all, even though a best record (here fitness 5) is held. -/
theorem C3_counterexample :
    (stepGen gL0 eL0 (⟨some (5, [0, 1])⟩ : OptState (List Nat))
        SimResult.final).2 = Except.ok none ∧
    ¬ ∃ rep : StepReport (List Nat) Nat,
        (stepGen gL0 eL0 (⟨some (5, [0, 1])⟩ : OptState (List Nat))
          SimResult.final).2 = Except.ok (some rep) := by
  constructor
  · rfl
  · rintro ⟨rep, h⟩
    simp [stepGen] at h

/-- C3 amended: every `step()` call on which the simulator reports an
intermediate result reports the evaluation of the layout materialized
from the (updated) all-time-best genome, not merely the generation's
best; the call on which the simulator reports its final result returns
no evaluation (`Ok(None)`). -/
theorem C3_reports_all_time_best {G L E : Type} (gL : G → L) (eL : L → E)
    (st : OptState G) (f : Nat) (g : G) :
    (∃ f2 g2,
      (stepGen gL eL st (SimResult.intermediate f g)).1.all_time_best =
        some (f2, g2) ∧
      (stepGen gL eL st (SimResult.intermediate f g)).2 =
        Except.ok (some ⟨gL g2, eL (gL g2)⟩)) ∧
    (stepGen gL eL st SimResult.final).2 = Except.ok none :=
  ⟨stepGen_intermediate_spec gL eL st f g, rfl⟩

/-- C6 counterexample: when the simulator reports an error, `step()`
does not return a normal (`Ok`) `Failed` outcome — it returns the
`Err` channel (thrown across the wasm boundary as a JavaScript
exception, lib.rs 286-289). -/
theorem C6_counterexample :
    (stepGen gL0 eL0 (⟨none⟩ : OptState (List Nat))
        (SimResult.err "boom")).2 =
      Except.error "Error in optimization: boom" ∧
    ¬ ∃ out : Option (StepReport (List Nat) Nat),
        (stepGen gL0 eL0 (⟨none⟩ : OptState (List Nat))
          (SimResult.err "boom")).2 = Except.ok out := by
  constructor
  · rfl
  · rintro ⟨out, h⟩
    simp [stepGen] at h

/-- C6 amended: when the simulator reports an error, `step()` surfaces
it as an error return (a thrown JavaScript exception carrying the
message), not as a `Failed` outcome value; the optimizer state,
including the last known `all_time_best`, is left unchanged, so the
caller can still inspect it before abandoning the run. -/
theorem C6_err_is_error_state_preserved {G L E : Type} (gL : G → L)
    (eL : L → E) (st : OptState G) (e : String) :
    stepGen gL eL st (SimResult.err e) =
      (st, Except.error ("Error in optimization: " ++ e)) := rfl

/-- C7 counterexample: `step()` called after a `Final` outcome does not
fail with any error (there is no `AlreadyTerminatedError` in the
code): from a fresh optimizer, a `Final` result followed by another
`step()` whose simulator result is intermediate yields a normal
successful report, silently continuing the search. -/
theorem C7_counterexample :
    runOutputs gL0 eL0 (⟨none⟩ : OptState (List Nat))
        [SimResult.final, SimResult.intermediate 3 [0, 1]] =
      [Except.ok none, Except.ok (some ⟨[0, 1], 2⟩)] ∧
    ¬ ∃ msg : String,
        (runOutputs gL0 eL0 (⟨none⟩ : OptState (List Nat))
            [SimResult.final, SimResult.intermediate 3 [0, 1]]).getD 1
          (Except.ok none) = Except.error msg := by
  constructor
  · rfl
  · rintro ⟨msg, h⟩
    simp [runOutputs, stepGen, offer, gL0, eL0, List.getD] at h

/-- C7 amended: `step()` performs no termination check: after a call
whose result was `Final`, a further `step()` simply delegates to the
simulator again and processes its result normally — a subsequent
intermediate result produces a successful report (no
`AlreadyTerminatedError` exists in the code). -/
theorem C7_no_termination_guard {G L E : Type} (gL : G → L) (eL : L → E)
    (st0 : OptState G) (rs : List (SimResult G)) (f : Nat) (g : G) :
    ∃ rep : StepReport L E,
      (stepGen gL eL (runOpt gL eL st0 (rs ++ [SimResult.final]))
        (SimResult.intermediate f g)).2 = Except.ok (some rep) := by
  obtain ⟨f2, g2, _, hout⟩ :=
    stepGen_intermediate_spec gL eL
      (runOpt gL eL st0 (rs ++ [SimResult.final])) f g
  exact ⟨_, hout⟩

theorem updateIters_append {C : Type} (l1 l2 : List (SaCall C)) :
    updateIters (l1 ++ l2) = updateIters l1 ++ updateIters l2 := by
  simp [updateIters]

theorem maxItersArgs_append {C : Type} (l1 l2 : List (SaCall C)) :
    maxItersArgs (l1 ++ l2) = maxItersArgs l1 ++ maxItersArgs l2 := by
  simp [maxItersArgs]

theorem updateIters_saIterCalls {P C : Type}
    (gs : PermutationLayoutGenerator → P → String) (obs : SaObserver P C)
    (run : SaRun P C) (i : Nat) :
    updateIters (saIterCalls gs obs run i) =
      if i % 10 = 0 ∧ 0 < i then [i] else [] := by
  unfold saIterCalls observe_iter
  by_cases h1 : i % 10 = 0 ∧ 0 < i <;> by_cases h2 : run.best i <;>
    simp [h1, h2, updateIters]

theorem maxItersArgs_saIterCalls {P C : Type}
    (gs : PermutationLayoutGenerator → P → String) (obs : SaObserver P C)
    (run : SaRun P C) (i : Nat) :
    maxItersArgs (saIterCalls gs obs run i) = [] := by
  unfold saIterCalls observe_iter
  by_cases h1 : i % 10 = 0 ∧ 0 < i <;> by_cases h2 : run.best i <;>
    simp [h1, h2, maxItersArgs]

theorem updateIters_loop {P C : Type}
    (gs : PermutationLayoutGenerator → P → String) (obs : SaObserver P C)
    (run : SaRun P C) (n : Nat) :
    updateIters ((List.range n).flatMap
        (fun i => saIterCalls gs obs run (i + 1))) =
      ((List.range n).map (fun i => i + 1)).filter
        (fun i => i % 10 == 0) := by
  induction n with
  | zero => rfl
  | succ n ih =>
      rw [List.range_succ]
      rw [List.flatMap_append, updateIters_append, ih]
      simp only [updateIters_saIterCalls, List.filter_append,
        List.flatMap_cons, List.flatMap_nil, List.append_nil,
        List.map_cons, List.map_nil, List.filter_cons, List.filter_nil,
        Nat.succ_pos, and_true]
      by_cases h : (n + 1) % 10 = 0 <;> simp [h]

theorem maxItersArgs_loop {P C : Type}
    (gs : PermutationLayoutGenerator → P → String) (obs : SaObserver P C)
    (run : SaRun P C) (n : Nat) :
    maxItersArgs ((List.range n).flatMap
        (fun i => saIterCalls gs obs run (i + 1))) = [] := by
  induction n with
  | zero => rfl
  | succ n ih =>
      rw [List.range_succ]
      rw [List.flatMap_append, maxItersArgs_append, ih]
      simp [maxItersArgs_saIterCalls]

theorem correct_init_temp_max_iters (p : SaParameters) :
    (correct_init_temp p).max_iters = p.max_iters := by
  unfold correct_init_temp
  split <;> rfl

theorem correct_init_temp_pos (p : SaParameters) :
    0 < (correct_init_temp p).init_temp := by
  by_cases h : p.init_temp ≤ 0
  · simp only [correct_init_temp, if_pos h]
    norm_num [default_init_temp]
  · simp only [correct_init_temp, if_neg h]
    exact not_le.mp h

theorem sa_optimize_some {P C : Type} (p0 : SaParameters)
    (gs : PermutationLayoutGenerator → P → String)
    (lstr fstr : String) (mcb ucb : Nat → Except String Unit)
    (nbcb : String → C → Except String Unit) (run : SaRun P C) :
    sa_optimize (some p0) gs lstr fstr mcb ucb nbcb run =
      SaOutcome.returned (correct_init_temp p0)
        ([SaCall.maxIters (correct_init_temp p0).max_iters,
            SaCall.update 1] ++
          (List.range (correct_init_temp p0).max_iters).flatMap
            (fun i =>
              saIterCalls gs ⟨⟨lstr, fstr⟩, ucb, nbcb⟩ run (i + 1)))
        run.result_text := rfl

/-- Concrete generate_string stand-in for counterexamples and
witnesses. -/
def genString0 : PermutationLayoutGenerator → Nat → String := fun _ _ => "s"

/-- Concrete always-succeeding numeric callback. -/
def cbU0 : Nat → Except String Unit := fun _ => Except.ok ()

/-- Concrete always-succeeding new-best callback. -/
def cbB0 : String → Nat → Except String Unit := fun _ _ => Except.ok ()

/-- Concrete annealing run data with no new-best iterations. -/
def saRun0 : SaRun Nat Nat := ⟨fun _ => 0, fun _ => 0, fun _ => false, "res"⟩

/-- Concrete parameters: initial temperature 0, iteration budget 100
(the spec's Scenario 2). -/
def saParams0 : SaParameters := ⟨0, 100⟩

/-- The concrete `sa_optimize` outcome for Scenario 2. -/
def saOut0 : SaOutcome Nat :=
  sa_optimize (some saParams0) genString0 "base" "" cbU0 cbU0 cbB0 saRun0

/-- C4 counterexample: with iteration budget 100, the `update_callback`
invocations are not only at iterations 10,20,...,100: lib.rs 344-345
invokes `update_callback` with `1` before the annealing loop starts, so
there are 11 progress notifications, one of which is at iteration 1 (not
a multiple of 10). -/
theorem C4_counterexample :
    updateIters (callsOf saOut0) =
      [1, 10, 20, 30, 40, 50, 60, 70, 80, 90, 100] ∧
    (1 : Nat) ∈ updateIters (callsOf saOut0) ∧
    ¬ ((1 : Nat) % 10 = 0) ∧
    (updateIters (callsOf saOut0)).length = 11 := by decide

/-- C4 amended: for an annealing run with iteration budget 100,
`sa_optimize` emits exactly one budget notification via
`max_iters_callback` (with argument 100), and exactly eleven progress
notifications via `update_callback`: one fixed initial one with
argument 1 emitted before the loop, plus the observer's throttled ones
at exactly the iterations 10, 20, ..., 100 (only every 10th iteration
and only after the first iteration), regardless of the run's states
and callbacks. -/
theorem C4_budget_and_throttle {P C : Type} (t : Rat)
    (gs : PermutationLayoutGenerator → P → String) (lstr fstr : String)
    (mcb ucb : Nat → Except String Unit)
    (nbcb : String → C → Except String Unit) (run : SaRun P C) :
    maxItersArgs (callsOf
        (sa_optimize (some ⟨t, 100⟩) gs lstr fstr mcb ucb nbcb run)) =
      [100] ∧
    updateIters (callsOf
        (sa_optimize (some ⟨t, 100⟩) gs lstr fstr mcb ucb nbcb run)) =
      [1, 10, 20, 30, 40, 50, 60, 70, 80, 90, 100] := by
  rw [sa_optimize_some]
  have hmax : (correct_init_temp ⟨t, 100⟩).max_iters = 100 :=
    correct_init_temp_max_iters _
  rw [callsOf, hmax]
  constructor
  · rw [maxItersArgs_append, maxItersArgs_loop]
    rfl
  · rw [updateIters_append, updateIters_loop]
    have : ((List.range 100).map (fun i => i + 1)).filter
        (fun i => i % 10 == 0) =
        [10, 20, 30, 40, 50, 60, 70, 80, 90, 100] := by decide
    rw [this]
    rfl

/-- C5: during an annealing run, whenever the observed iteration's
state is a new best-ever solution (`state.is_best()`), the observer
invokes `new_best_callback` with the textual layout produced (via
`generate_string`) by the `PermutationLayoutGenerator` constructed for
the run from the starting layout and the fixed characters, and with
the candidate's cost. -/
theorem C5_new_best_reported {P C : Type} (p0 : SaParameters)
    (gs : PermutationLayoutGenerator → P → String) (lstr fstr : String)
    (mcb ucb : Nat → Except String Unit)
    (nbcb : String → C → Except String Unit) (run : SaRun P C) (i : Nat)
    (h1 : 1 ≤ i) (h2 : i ≤ p0.max_iters) (hb : run.best i = true) :
    SaCall.newBest (gs ⟨lstr, fstr⟩ (run.param i)) (run.cost i) ∈
      callsOf (sa_optimize (some p0) gs lstr fstr mcb ucb nbcb run) := by
  rw [sa_optimize_some, callsOf]
  apply List.mem_append_right
  rw [List.mem_flatMap]
  refine ⟨i - 1, ?_, ?_⟩
  · rw [List.mem_range, correct_init_temp_max_iters]
    omega
  · have hi : i - 1 + 1 = i := by omega
    rw [hi]
    unfold saIterCalls observe_iter
    simp [hb]

/-- Concrete annealing run data whose every iteration is a new best. -/
def saRunBest : SaRun Nat Nat := ⟨fun _ => 7, fun _ => 3, fun _ => true, "res"⟩

/-- Witness for C5 at concrete inputs: budget 1, iteration 1 is a new
best, and its new-best notification is among the calls. -/
theorem C5_new_best_reported_witness :
    SaCall.newBest (genString0 ⟨"base", ""⟩ (saRunBest.param 1))
        (saRunBest.cost 1) ∈
      callsOf (sa_optimize (some (⟨1, 1⟩ : SaParameters)) genString0
        "base" "" cbU0 cbU0 cbB0 saRunBest) :=
  C5_new_best_reported ⟨1, 1⟩ genString0 "base" "" cbU0 cbU0 cbB0 saRunBest 1
    (by decide) (by decide) (by decide)

/-- C8: when `sa_optimize` is given parameters with a non-positive
initial temperature, the temperature is corrected to the positive
default before the annealing engine is invoked (the engine receives
exactly `correct_init_temp p0`, whose temperature is positive); the
correction never fails, so the `InvalidParameterError` clause is
vacuously satisfied. -/
theorem C8_init_temp_corrected {P C : Type} (p0 : SaParameters)
    (gs : PermutationLayoutGenerator → P → String) (lstr fstr : String)
    (mcb ucb : Nat → Except String Unit)
    (nbcb : String → C → Except String Unit) (run : SaRun P C)
    (h : p0.init_temp ≤ 0) :
    (∃ calls layout_text,
      sa_optimize (some p0) gs lstr fstr mcb ucb nbcb run =
        SaOutcome.returned (correct_init_temp p0) calls layout_text) ∧
    (correct_init_temp p0).init_temp = default_init_temp ∧
    0 < (correct_init_temp p0).init_temp := by
  refine ⟨⟨_, _, sa_optimize_some p0 gs lstr fstr mcb ucb nbcb run⟩, ?_,
    correct_init_temp_pos p0⟩
  simp only [correct_init_temp, if_pos h]

/-- Witness for C8 at concrete inputs: temperature 0 with budget 100 is
corrected to the positive default before the engine runs. -/
theorem C8_init_temp_corrected_witness :
    (∃ calls layout_text,
      sa_optimize (some saParams0) genString0 "base" "" cbU0 cbU0 cbB0
          saRun0 =
        SaOutcome.returned (correct_init_temp saParams0) calls
          layout_text) ∧
    (correct_init_temp saParams0).init_temp = default_init_temp ∧
    0 < (correct_init_temp saParams0).init_temp :=
  C8_init_temp_corrected saParams0 genString0 "base" "" cbU0 cbU0 cbB0
    saRun0 (le_refl 0)

/-- C9: when the optimization parameter string does not parse,
`sa_optimize` panics (the `unwrap` at lib.rs 336); it does not return a
layout string or any other value to the caller (its Rust signature has
no error channel at all). -/
theorem C9_parse_failure_panics {P C : Type}
    (gs : PermutationLayoutGenerator → P → String) (lstr fstr : String)
    (mcb ucb : Nat → Except String Unit)
    (nbcb : String → C → Except String Unit) (run : SaRun P C) :
    sa_optimize (none : Option SaParameters) gs lstr fstr mcb ucb nbcb run =
      SaOutcome.panic "Could not read optimization params" ∧
    ∀ (p : SaParameters) (calls : List (SaCall C)) (layout_text : String),
      sa_optimize (none : Option SaParameters) gs lstr fstr mcb ucb nbcb
          run ≠ SaOutcome.returned p calls layout_text := by
  refine ⟨rfl, fun p calls layout_text h => ?_⟩
  exact SaOutcome.noConfusion h

/-- C10: `SaObserver::observe_iter` returns `Ok(())` for every observed
iteration state and for arbitrary callbacks (in particular for
callbacks that fail): both callback results are discarded, so observer
callback failures never abort the annealing run. -/
theorem C10_observe_iter_ok {P C : Type}
    (gs : PermutationLayoutGenerator → P → String)
    (obs : SaObserver P C) (state : SaIterState P C) :
    (observe_iter gs obs state).2 = Except.ok () := rfl
